import Mathlib

/-!
# DVCLoader: plugin resolution protocol

A shallow embedding of `src/DVCLoader.cpp`.  Every function of the source is
a Lean function of the same name that returns the value the C++ function
returns together with the trace of the calls it makes on its collaborators
(the COM runtime, the dynamic-library loader, the C heap, the loaded library
and the objects it hands out).

The collaborators are a parameter, `Env`: one response function per
collaborator operation, from the arguments of the call to what the call leaves
behind (its status and the value of its output parameters).  In one run every
operation is called at most once with given arguments, so a response function
describes every behaviour a collaborator can show in a run, stateful ones
included.  The embedding describes the runs in which every collaborator call
returns to its caller.

Conventions:
* pointers and handles are natural numbers and `NULL` is 0; a method call through
  an interface pointer (`Release`, `CreateInstance`) is a collaborator call like the
  others, recorded with the pointer it goes through: the embedding does not say which
  pointers denote live objects;
* a status is an integer and `S_OK` is 0;
* a C string is the list of its characters, and `argv` is the list of its strings,
  so `argc` is its length;
* the conversion of the argument to a `_bstr_t` in `parseCLSIDString` is the identity:
  `CLSIDFromString` is given the characters of the argument;
* a `ULONG` count is a natural number; the one product of the source that can wrap,
  the byte size given to `malloc`, is reduced modulo the range of `size_t`.
-/

namespace DVCLoader

/-- A NUL-terminated C string, given by its characters before the terminator. -/
abbrev CString := List Char

/-- A pointer or handle value (object, module, function or heap pointer). -/
abbrev Ptr := Nat

/-- The null pointer. -/
abbrev NULL : Ptr := 0

/-- A COM status code. -/
abbrev HRESULT := Int

/-- The success status. -/
abbrev S_OK : HRESULT := 0

/-- The success status as `CLSIDFromString` documents it; the same value as `S_OK`. -/
abbrev NOERROR : HRESULT := 0

/-- A class identifier (a 128-bit GUID, given by its value). -/
abbrev CLSID := Nat

/-- The responses of the collaborators.  Each field maps the arguments of a call
to what the call leaves behind: the returned status or pointer and the value found
in each output parameter after the call. -/
structure Env where
  /-- The value of `sizeof(LPVOID)`, which is also the width of `size_t` in bytes. -/
  sizeofLPVOID : Nat
  /-- Status, and the value stored in `*clsid`. -/
  CLSIDFromString : CString → HRESULT × CLSID
  /-- Status, and the value of `pWTSPlugin` after the call (it is `NULL` before). -/
  CoCreateInstance : CLSID → HRESULT × Ptr
  /-- The module handle, `NULL` on failure. -/
  LoadLibrary : CString → Ptr
  /-- The address of the export of that name, `NULL` when absent. -/
  GetProcAddress : Ptr → String → Ptr
  /-- The export called through pointer `pfn` with `numObjs` holding the given value
  and with the given `objArray`: status, the value of `numObjs` after the call, and
  the memory seen through `objArray` after the call (`objArray[i]` for each `i`). -/
  VirtualChannelGetInstance : Ptr → Nat → Ptr → HRESULT × Nat × (Nat → Ptr)
  /-- The allocated block for a request of that many bytes, `NULL` on failure. -/
  malloc : Nat → Ptr
  /-- The export called through pointer `pfn` for a class: status, and the value of
  `pClassFactory` after the call (it is `NULL` before). -/
  DllGetClassObject : Ptr → CLSID → HRESULT × Ptr
  /-- The method `CreateInstance` of the factory at that pointer: status, and the
  value of `pWTSPlugin` after the call (it is `NULL` before). -/
  CreateInstance : Ptr → HRESULT × Ptr

/-- The diagnostics written to the error stream, one per `fprintf(stderr, ...)` of
the source, with the formatted argument. -/
inductive Diag where
  | couldNotLoad (dllName : CString)
  | noVirtualChannelGetInstance
  | errVirtualChannelGetInstance (hr : HRESULT)
  | noObjects
  | noMemory
  | noDllGetClassObject
  | errDllGetClassObject (hr : HRESULT)
  | errCreateInstance (hr : HRESULT)
  | errCoCreateInstance (hr : HRESULT)
  deriving DecidableEq, Repr

/-- The three loading functions `main` can call, with their arguments. -/
inductive StrategyCall where
  | loadDVCUsingCLSID (clsid : CLSID)
  | loadDVCUsingDllName (dllName : CString)
  | loadDVCUsingDllNameCLSID (dllName : CString) (clsid : CLSID)
  deriving DecidableEq, Repr

/-- One observable step of a run: a call on a collaborator, an output, or the
call of a loading function by `main`. -/
inductive Event where
  | CoInitialize
  | CoUninitialize
  | usage
  | printf (pWTSPlugin : Ptr)
  | fprintf (d : Diag)
  | CLSIDFromString (s : CString)
  | call (c : StrategyCall)
  | CoCreateInstance (clsid : CLSID)
  | LoadLibrary (dllName : CString)
  | GetProcAddress (hModule : Ptr) (name : String)
  | VirtualChannelGetInstance (pfn : Ptr) (numObjs : Nat) (objArray : Ptr)
  | malloc (size : Nat)
  | free (p : Ptr)
  | Release (p : Ptr)
  | DllGetClassObject (pfn : Ptr) (clsid : CLSID)
  | CreateInstance (pClassFactory : Ptr)
  | FreeLibrary (hModule : Ptr)
  deriving DecidableEq, Repr

/-- What a function returns, with the trace of the steps it took, in order. -/
structure Ret (α : Type) where
  val : α
  trace : List Event

/-- The function `showUsage`: prints the usage line. -/
def showUsage : List Event := [Event.usage]

/-- The function `parseCLSIDString`: the returned `BOOL` and the value left in `*clsid`. -/
def parseCLSIDString (env : Env) (cstrCLSID : CString) : Ret (Bool × CLSID) :=
  let r := env.CLSIDFromString cstrCLSID
  ⟨(if r.1 = NOERROR then true else false, r.2), [Event.CLSIDFromString cstrCLSID]⟩

/-- The function `loadDVCUsingCLSID`. -/
def loadDVCUsingCLSID (env : Env) (clsid : CLSID) : Ret Ptr :=
  let r := env.CoCreateInstance clsid
  let hr := r.1
  let pWTSPlugin := r.2
  let t := [Event.CoCreateInstance clsid]
  if hr ≠ S_OK then
    ⟨NULL, t ++ [Event.fprintf (Diag.errCoCreateInstance hr)]⟩
  else
    ⟨pWTSPlugin, t⟩

/-- The loop `for (ULONG i = 1; i < numObjs; i++)` of `loadDVCUsingDllName`, started
at `i`: a `Release` on `objArray[i]` in each round. -/
def releaseLoop (objArray : Nat → Ptr) (numObjs : Nat) (i : Nat) : List Event :=
  if i < numObjs then
    Event.Release (objArray i) :: releaseLoop objArray numObjs (i + 1)
  else
    []
termination_by numObjs - i

/-- The block at label `EXCEPTION` of `loadDVCUsingDllName`, entered with the given
values of the locals after the steps `t`. -/
def loadDVCUsingDllName_EXCEPTION (objArray hModule pWTSPlugin : Ptr)
    (t : List Event) : Ret Ptr :=
  let t := if objArray ≠ NULL then t ++ [Event.free objArray] else t
  ⟨pWTSPlugin, t ++ [Event.FreeLibrary hModule]⟩

/-- The function `loadDVCUsingDllName`. -/
def loadDVCUsingDllName (env : Env) (dllName : CString) : Ret Ptr :=
  let pWTSPlugin : Ptr := NULL
  let objArray : Ptr := NULL
  let numObjs : Nat := 0
  let hModule := env.LoadLibrary dllName
  let t := [Event.LoadLibrary dllName]
  if hModule = NULL then
    loadDVCUsingDllName_EXCEPTION objArray hModule pWTSPlugin
      (t ++ [Event.fprintf (Diag.couldNotLoad dllName)])
  else
    let pfn := env.GetProcAddress hModule "VirtualChannelGetInstance"
    let t := t ++ [Event.GetProcAddress hModule "VirtualChannelGetInstance"]
    if pfn = NULL then
      loadDVCUsingDllName_EXCEPTION objArray hModule pWTSPlugin
        (t ++ [Event.fprintf Diag.noVirtualChannelGetInstance])
    else
      let r := env.VirtualChannelGetInstance pfn numObjs NULL
      let t := t ++ [Event.VirtualChannelGetInstance pfn numObjs NULL]
      let hr := r.1
      let numObjs := r.2.1
      if hr ≠ S_OK then
        loadDVCUsingDllName_EXCEPTION objArray hModule pWTSPlugin
          (t ++ [Event.fprintf (Diag.errVirtualChannelGetInstance hr)])
      else if numObjs = 0 then
        loadDVCUsingDllName_EXCEPTION objArray hModule pWTSPlugin
          (t ++ [Event.fprintf Diag.noObjects])
      else
        let size := (numObjs * env.sizeofLPVOID) % 2 ^ (8 * env.sizeofLPVOID)
        let objArray := env.malloc size
        let t := t ++ [Event.malloc size]
        if objArray = NULL then
          loadDVCUsingDllName_EXCEPTION objArray hModule pWTSPlugin
            (t ++ [Event.fprintf Diag.noMemory])
        else
          let r := env.VirtualChannelGetInstance pfn numObjs objArray
          let t := t ++ [Event.VirtualChannelGetInstance pfn numObjs objArray]
          let hr := r.1
          let numObjs := r.2.1
          let mem := r.2.2
          if hr ≠ S_OK then
            loadDVCUsingDllName_EXCEPTION objArray hModule pWTSPlugin
              (t ++ [Event.fprintf (Diag.errVirtualChannelGetInstance hr)])
          else
            let pWTSPlugin := mem 0
            let t := t ++ releaseLoop mem numObjs 1
            loadDVCUsingDllName_EXCEPTION objArray hModule pWTSPlugin t

/-- The block at label `EXCEPTION` of `loadDVCUsingDllNameCLSID`, entered with the
given values of the locals after the steps `t`. -/
def loadDVCUsingDllNameCLSID_EXCEPTION (pClassFactory hModule pWTSPlugin : Ptr)
    (t : List Event) : Ret Ptr :=
  let t := if pClassFactory ≠ NULL then t ++ [Event.Release pClassFactory] else t
  ⟨pWTSPlugin, t ++ [Event.FreeLibrary hModule]⟩

/-- The function `loadDVCUsingDllNameCLSID`. -/
def loadDVCUsingDllNameCLSID (env : Env) (dllName : CString) (clsid : CLSID) : Ret Ptr :=
  let pClassFactory : Ptr := NULL
  let pWTSPlugin : Ptr := NULL
  let hModule := env.LoadLibrary dllName
  let t := [Event.LoadLibrary dllName]
  if hModule = NULL then
    loadDVCUsingDllNameCLSID_EXCEPTION pClassFactory hModule pWTSPlugin
      (t ++ [Event.fprintf (Diag.couldNotLoad dllName)])
  else
    let pfn := env.GetProcAddress hModule "DllGetClassObject"
    let t := t ++ [Event.GetProcAddress hModule "DllGetClassObject"]
    if pfn = NULL then
      loadDVCUsingDllNameCLSID_EXCEPTION pClassFactory hModule pWTSPlugin
        (t ++ [Event.fprintf Diag.noDllGetClassObject])
    else
      let r := env.DllGetClassObject pfn clsid
      let t := t ++ [Event.DllGetClassObject pfn clsid]
      let hr := r.1
      let pClassFactory := r.2
      if hr ≠ S_OK then
        loadDVCUsingDllNameCLSID_EXCEPTION pClassFactory hModule pWTSPlugin
          (t ++ [Event.fprintf (Diag.errDllGetClassObject hr)])
      else
        let r := env.CreateInstance pClassFactory
        let t := t ++ [Event.CreateInstance pClassFactory]
        let hr := r.1
        let pWTSPlugin := r.2
        if hr ≠ S_OK then
          loadDVCUsingDllNameCLSID_EXCEPTION pClassFactory hModule pWTSPlugin
            (t ++ [Event.fprintf (Diag.errCreateInstance hr)])
        else
          loadDVCUsingDllNameCLSID_EXCEPTION pClassFactory hModule pWTSPlugin t

/-- The library function `strrchr` for a character other than NUL: the offset of the
last occurrence of `c` in the string, or `none` (the null pointer) when there is none. -/
def strrchr : CString → Char → Option Nat
  | [], _ => none
  | x :: xs, c =>
    match strrchr xs c with
    | some i => some (i + 1)
    | none => if x = c then some 0 else none

/-- The function `main`, on the argument vector (`argc` is its length): the exit
status and the trace.  The string at `colon + 1` is the text after offset `colon`;
after `*colon = 0` the string at `dllName` is the text before that offset. -/
def main (env : Env) (argv : List CString) : Ret Int :=
  let t := [Event.CoInitialize]
  if argv.length ≠ 2 then
    ⟨-1, t ++ showUsage⟩
  else
    let arg := argv.getD 1 []
    let r : Ret Ptr :=
      match strrchr arg ':' with
      | some colon =>
        let dllName := arg
        let cstrCLSID := arg.drop (colon + 1)
        let p := parseCLSIDString env cstrCLSID
        if p.val.1 = true then
          let dllName := arg.take colon
          let s := loadDVCUsingDllNameCLSID env dllName p.val.2
          ⟨s.val, p.trace ++
            Event.call (StrategyCall.loadDVCUsingDllNameCLSID dllName p.val.2) :: s.trace⟩
        else
          let s := loadDVCUsingDllName env dllName
          ⟨s.val, p.trace ++ Event.call (StrategyCall.loadDVCUsingDllName dllName) :: s.trace⟩
      | none =>
        let p := parseCLSIDString env arg
        if p.val.1 = true then
          let s := loadDVCUsingCLSID env p.val.2
          ⟨s.val, p.trace ++ Event.call (StrategyCall.loadDVCUsingCLSID p.val.2) :: s.trace⟩
        else
          let s := loadDVCUsingDllName env arg
          ⟨s.val, p.trace ++ Event.call (StrategyCall.loadDVCUsingDllName arg) :: s.trace⟩
    ⟨0, t ++ r.trace ++ [Event.printf r.val, Event.CoUninitialize]⟩

/-! ## Observations on traces -/

/-- The loading functions called in a trace, in order. -/
def invocations (t : List Event) : List StrategyCall :=
  t.filterMap fun e => match e with
    | Event.call c => some c
    | _ => none

/-- The handles passed to `FreeLibrary` in a trace, in order. -/
def freeLibraryCalls (t : List Event) : List Ptr :=
  t.filterMap fun e => match e with
    | Event.FreeLibrary h => some h
    | _ => none

/-- The pointers on which `Release` is called in a trace, in order. -/
def releaseCalls (t : List Event) : List Ptr :=
  t.filterMap fun e => match e with
    | Event.Release p => some p
    | _ => none

/-- The calls of the discovery export in a trace, in order: the value of `numObjs`
going in and the buffer pointer. -/
def discoveryCalls (t : List Event) : List (Nat × Ptr) :=
  t.filterMap fun e => match e with
    | Event.VirtualChannelGetInstance _ n a => some (n, a)
    | _ => none

/-- The number of teardowns of the COM runtime (`CoUninitialize`) in a trace. -/
def teardowns (t : List Event) : Nat :=
  t.count Event.CoUninitialize

/-- The number of initializations of the COM runtime (`CoInitialize`) in a trace. -/
def initializations (t : List Event) : Nat :=
  t.count Event.CoInitialize

/-! ## Concrete collaborators -/

/-- The failure status `E_FAIL` (0x80004005 as a signed 32-bit value). -/
def E_FAIL : HRESULT := -2147467259

/-- Collaborators for which every operation fails and leaves every output
parameter as it was. -/
def envNone : Env :=
  { sizeofLPVOID := 8
    CLSIDFromString := fun _ => (E_FAIL, 0)
    CoCreateInstance := fun _ => (E_FAIL, NULL)
    LoadLibrary := fun _ => NULL
    GetProcAddress := fun _ _ => NULL
    VirtualChannelGetInstance := fun _ n _ => (E_FAIL, n, fun _ => NULL)
    malloc := fun _ => NULL
    DllGetClassObject := fun _ _ => (E_FAIL, NULL)
    CreateInstance := fun _ => (E_FAIL, NULL) }

/-- Collaborators whose identifier parser accepts exactly the literal `g1`, as
class 77, and for which everything else fails. -/
def envParse : Env :=
  { envNone with
    CLSIDFromString := fun s => if s = ['g', '1'] then (NOERROR, 77) else (E_FAIL, 0) }

/-- A library that loads and whose discovery export reports success and no object. -/
def envEmpty : Env :=
  { envNone with
    LoadLibrary := fun _ => 1
    GetProcAddress := fun _ _ => 2
    VirtualChannelGetInstance := fun _ _ _ => (S_OK, 0, fun _ => NULL) }

/-- A library whose class-object export succeeds with the factory at pointer 5, and
whose factory fails in `CreateInstance` with status `E_FAIL` after it has stored the
pointer 9 in its output parameter. -/
def envBadFactory : Env :=
  { envNone with
    LoadLibrary := fun _ => 1
    GetProcAddress := fun _ _ => 2
    DllGetClassObject := fun _ _ => (S_OK, 5)
    CreateInstance := fun _ => (E_FAIL, 9) }

/-- A library whose class-object export fails with status `E_FAIL` after it has stored
the pointer 5 in its output parameter. -/
def envBadExport : Env :=
  { envNone with
    LoadLibrary := fun _ => 1
    GetProcAddress := fun _ _ => 2
    DllGetClassObject := fun _ _ => (E_FAIL, 5) }

/-! ## The steps of a run, named -/

/-- The address `loadDVCUsingDllName` gets for the discovery export. -/
def discoveryExport (env : Env) (dllName : CString) : Ptr :=
  env.GetProcAddress (env.LoadLibrary dllName) "VirtualChannelGetInstance"

/-- The response to the first call of the discovery export in `loadDVCUsingDllName`:
`numObjs` is 0 and the buffer is `NULL`. -/
def probeCall (env : Env) (dllName : CString) : HRESULT × Nat × (Nat → Ptr) :=
  env.VirtualChannelGetInstance (discoveryExport env dllName) 0 NULL

/-- The buffer `loadDVCUsingDllName` allocates for the count the first call reported. -/
def objArrayOf (env : Env) (dllName : CString) : Ptr :=
  env.malloc (((probeCall env dllName).2.1 * env.sizeofLPVOID) % 2 ^ (8 * env.sizeofLPVOID))

/-- The response to the second call of the discovery export in `loadDVCUsingDllName`:
`numObjs` holds the count the first call reported and the buffer is the allocated one. -/
def fillCall (env : Env) (dllName : CString) : HRESULT × Nat × (Nat → Ptr) :=
  env.VirtualChannelGetInstance (discoveryExport env dllName) (probeCall env dllName).2.1
    (objArrayOf env dllName)

/-- The address `loadDVCUsingDllNameCLSID` gets for the class-object export. -/
def classObjectExport (env : Env) (dllName : CString) : Ptr :=
  env.GetProcAddress (env.LoadLibrary dllName) "DllGetClassObject"

/-- The response to the call of the class-object export in `loadDVCUsingDllNameCLSID`. -/
def classObjectCall (env : Env) (dllName : CString) (clsid : CLSID) : HRESULT × Ptr :=
  env.DllGetClassObject (classObjectExport env dllName) clsid

/-- The response to the call of `CreateInstance` in `loadDVCUsingDllNameCLSID`. -/
def createInstanceCall (env : Env) (dllName : CString) (clsid : CLSID) : HRESULT × Ptr :=
  env.CreateInstance (classObjectCall env dllName clsid).2

/-! ## Basic facts -/

theorem strrchr_eq_none_iff (s : CString) (c : Char) : strrchr s c = none ↔ c ∉ s := by
  induction s with
  | nil => simp [strrchr]
  | cons x xs ih =>
    unfold strrchr
    cases h : strrchr xs c with
    | some i =>
      have hin : ¬ c ∉ xs := fun hn => by
        rw [ih.mpr hn] at h
        cases h
      have hmem : c ∈ xs := not_not.mp hin
      simp [hmem]
    | none =>
      have hn : c ∉ xs := ih.mp h
      by_cases hx : x = c
      · simp [hx]
      · have hx2 : ¬ c = x := fun e => hx e.symm
        simp [hx, hx2, hn]

theorem strrchr_append_cons (name tail : CString) (c : Char) (h : c ∉ tail) :
    strrchr (name ++ c :: tail) c = some name.length := by
  induction name with
  | nil =>
    have hn : strrchr tail c = none := (strrchr_eq_none_iff tail c).mpr h
    simp [strrchr, hn]
  | cons x xs ih =>
    simp only [List.cons_append, List.length_cons]
    unfold strrchr
    rw [ih]

theorem releaseLoop_eq (mem : Nat → Ptr) (numObjs i : Nat) :
    releaseLoop mem numObjs i
      = (List.range' i (numObjs - i)).map fun j => Event.Release (mem j) := by
  generalize hk : numObjs - i = k
  induction k generalizing i with
  | zero =>
    unfold releaseLoop
    have : ¬ i < numObjs := by omega
    simp [this]
  | succ k ih =>
    unfold releaseLoop
    have hlt : i < numObjs := by omega
    have hk2 : numObjs - (i + 1) = k := by omega
    simp [hlt, ih (i + 1) hk2, List.range']

theorem take_append_cons_length (name tail : CString) (c : Char) :
    (name ++ c :: tail).take name.length = name := by
  simp

theorem drop_append_cons_length (name tail : CString) (c : Char) :
    (name ++ c :: tail).drop (name.length + 1) = tail := by
  induction name with
  | nil => simp
  | cons x xs ih => simp

theorem invocations_append (t u : List Event) :
    invocations (t ++ u) = invocations t ++ invocations u := by
  simp [invocations, List.filterMap_append]

theorem invocations_nil : invocations [] = [] := rfl

theorem invocations_cons (e : Event) (t : List Event) :
    invocations (e :: t)
      = (match e with
          | Event.call c => [c]
          | _ => []) ++ invocations t := by
  cases e <;> simp [invocations]

theorem invocations_parseCLSIDString (env : Env) (s : CString) :
    invocations (parseCLSIDString env s).trace = [] := by
  simp [parseCLSIDString, invocations]

theorem invocations_loadDVCUsingCLSID (env : Env) (clsid : CLSID) :
    invocations (loadDVCUsingCLSID env clsid).trace = [] := by
  unfold loadDVCUsingCLSID
  dsimp only
  split_ifs <;> simp [invocations]

theorem invocations_loadDVCUsingDllName (env : Env) (dllName : CString) :
    invocations (loadDVCUsingDllName env dllName).trace = [] := by
  unfold loadDVCUsingDllName loadDVCUsingDllName_EXCEPTION
  dsimp only
  split_ifs <;> simp [invocations, List.filterMap_append, releaseLoop_eq]

theorem invocations_loadDVCUsingDllNameCLSID (env : Env) (dllName : CString)
    (clsid : CLSID) :
    invocations (loadDVCUsingDllNameCLSID env dllName clsid).trace = [] := by
  unfold loadDVCUsingDllNameCLSID loadDVCUsingDllNameCLSID_EXCEPTION
  dsimp only
  split_ifs <;> simp [invocations, List.filterMap_append]

/-- What `main` does with one argument in which `strrchr` finds a colon at offset `i`. -/
theorem invocations_main_colon (env : Env) (prog arg : CString) (i : Nat)
    (h : strrchr arg ':' = some i) :
    invocations (main env [prog, arg]).trace
      = [if (parseCLSIDString env (arg.drop (i + 1))).val.1 = true then
          StrategyCall.loadDVCUsingDllNameCLSID (arg.take i)
            (parseCLSIDString env (arg.drop (i + 1))).val.2
        else StrategyCall.loadDVCUsingDllName arg] := by
  unfold main
  simp only [List.length_cons, List.length_nil, List.getD_cons_succ, List.getD_cons_zero, h]
  by_cases hp : (parseCLSIDString env (arg.drop (i + 1))).val.1 = true
  · simp [hp, invocations_append, invocations_cons, invocations_nil, invocations_parseCLSIDString,
      invocations_loadDVCUsingDllNameCLSID]
  · simp [hp, invocations_append, invocations_cons, invocations_nil, invocations_parseCLSIDString,
      invocations_loadDVCUsingDllName]

/-- What `main` does with one argument in which `strrchr` finds no colon. -/
theorem invocations_main_no_colon (env : Env) (prog arg : CString)
    (h : strrchr arg ':' = none) :
    invocations (main env [prog, arg]).trace
      = [if (parseCLSIDString env arg).val.1 = true then
          StrategyCall.loadDVCUsingCLSID (parseCLSIDString env arg).val.2
        else StrategyCall.loadDVCUsingDllName arg] := by
  unfold main
  simp only [List.length_cons, List.length_nil, List.getD_cons_succ, List.getD_cons_zero, h]
  by_cases hp : (parseCLSIDString env arg).val.1 = true
  · simp [hp, invocations_append, invocations_cons, invocations_nil, invocations_parseCLSIDString,
      invocations_loadDVCUsingCLSID]
  · simp [hp, invocations_append, invocations_cons, invocations_nil, invocations_parseCLSIDString,
      invocations_loadDVCUsingDllName]

/-- The whole run of `main` on one argument in which `strrchr` finds a colon at
offset `i` and the text after it parses. -/
theorem main_colon_parsed (env : Env) (prog arg : CString) (i : Nat)
    (h : strrchr arg ':' = some i)
    (hp : (parseCLSIDString env (arg.drop (i + 1))).val.1 = true) :
    main env [prog, arg]
      = ⟨0, [Event.CoInitialize, Event.CLSIDFromString (arg.drop (i + 1)),
              Event.call (StrategyCall.loadDVCUsingDllNameCLSID (arg.take i)
                (parseCLSIDString env (arg.drop (i + 1))).val.2)]
            ++ (loadDVCUsingDllNameCLSID env (arg.take i)
                (parseCLSIDString env (arg.drop (i + 1))).val.2).trace
            ++ [Event.printf (loadDVCUsingDllNameCLSID env (arg.take i)
                (parseCLSIDString env (arg.drop (i + 1))).val.2).val,
              Event.CoUninitialize]⟩ := by
  unfold main
  simp only [List.length_cons, List.length_nil, List.getD_cons_succ, List.getD_cons_zero, h]
  simp [hp]
  simp [parseCLSIDString]

/-- The whole run of `main` on one argument in which `strrchr` finds a colon at
offset `i` and the text after it does not parse. -/
theorem main_colon_unparsed (env : Env) (prog arg : CString) (i : Nat)
    (h : strrchr arg ':' = some i)
    (hp : (parseCLSIDString env (arg.drop (i + 1))).val.1 = false) :
    main env [prog, arg]
      = ⟨0, [Event.CoInitialize, Event.CLSIDFromString (arg.drop (i + 1)),
              Event.call (StrategyCall.loadDVCUsingDllName arg)]
            ++ (loadDVCUsingDllName env arg).trace
            ++ [Event.printf (loadDVCUsingDllName env arg).val, Event.CoUninitialize]⟩ := by
  unfold main
  simp only [List.length_cons, List.length_nil, List.getD_cons_succ, List.getD_cons_zero, h]
  simp [hp]
  simp [parseCLSIDString]

/-- The whole run of `main` on one argument without a colon that parses. -/
theorem main_no_colon_parsed (env : Env) (prog arg : CString)
    (h : strrchr arg ':' = none) (hp : (parseCLSIDString env arg).val.1 = true) :
    main env [prog, arg]
      = ⟨0, [Event.CoInitialize, Event.CLSIDFromString arg,
              Event.call (StrategyCall.loadDVCUsingCLSID (parseCLSIDString env arg).val.2)]
            ++ (loadDVCUsingCLSID env (parseCLSIDString env arg).val.2).trace
            ++ [Event.printf (loadDVCUsingCLSID env (parseCLSIDString env arg).val.2).val,
              Event.CoUninitialize]⟩ := by
  unfold main
  simp only [List.length_cons, List.length_nil, List.getD_cons_succ, List.getD_cons_zero, h]
  simp [hp]
  simp [parseCLSIDString]

/-- The whole run of `main` on one argument without a colon that does not parse. -/
theorem main_no_colon_unparsed (env : Env) (prog arg : CString)
    (h : strrchr arg ':' = none) (hp : (parseCLSIDString env arg).val.1 = false) :
    main env [prog, arg]
      = ⟨0, [Event.CoInitialize, Event.CLSIDFromString arg,
              Event.call (StrategyCall.loadDVCUsingDllName arg)]
            ++ (loadDVCUsingDllName env arg).trace
            ++ [Event.printf (loadDVCUsingDllName env arg).val, Event.CoUninitialize]⟩ := by
  unfold main
  simp only [List.length_cons, List.length_nil, List.getD_cons_succ, List.getD_cons_zero, h]
  simp [hp]
  simp [parseCLSIDString]

theorem envParse_rejects_colon (s : CString) (h : ':' ∈ s) :
    (parseCLSIDString envParse s).val.1 = false := by
  have hne : s ≠ ['g', '1'] := by
    rintro rfl
    simp at h
  simp [parseCLSIDString, envParse, hne, E_FAIL]

/-! ## Facts on the loading functions -/

theorem freeLibraryCalls_append (t u : List Event) :
    freeLibraryCalls (t ++ u) = freeLibraryCalls t ++ freeLibraryCalls u := by
  simp [freeLibraryCalls, List.filterMap_append]

theorem freeLibraryCalls_nil : freeLibraryCalls [] = [] := rfl

theorem freeLibraryCalls_cons (e : Event) (t : List Event) :
    freeLibraryCalls (e :: t)
      = (match e with
          | Event.FreeLibrary h => [h]
          | _ => []) ++ freeLibraryCalls t := by
  cases e <;> simp [freeLibraryCalls]

theorem releaseCalls_nil : releaseCalls [] = [] := rfl

theorem releaseCalls_cons (e : Event) (t : List Event) :
    releaseCalls (e :: t)
      = (match e with
          | Event.Release p => [p]
          | _ => []) ++ releaseCalls t := by
  cases e <;> simp [releaseCalls]

theorem discoveryCalls_nil : discoveryCalls [] = [] := rfl

theorem discoveryCalls_cons (e : Event) (t : List Event) :
    discoveryCalls (e :: t)
      = (match e with
          | Event.VirtualChannelGetInstance _ n a => [(n, a)]
          | _ => []) ++ discoveryCalls t := by
  cases e <;> simp [discoveryCalls]

theorem discoveryCalls_append (t u : List Event) :
    discoveryCalls (t ++ u) = discoveryCalls t ++ discoveryCalls u := by
  simp [discoveryCalls, List.filterMap_append]

theorem releaseCalls_append (t u : List Event) :
    releaseCalls (t ++ u) = releaseCalls t ++ releaseCalls u := by
  simp [releaseCalls, List.filterMap_append]

theorem freeLibraryCalls_releaseLoop (mem : Nat → Ptr) (numObjs i : Nat) :
    freeLibraryCalls (releaseLoop mem numObjs i) = [] := by
  rw [releaseLoop_eq]
  simp [freeLibraryCalls, List.filterMap_map, Function.comp_def]

/-- Every run of `loadDVCUsingDllName` ends with its one call of `FreeLibrary`, on the
value `LoadLibrary` returned. -/
theorem loadDVCUsingDllName_ends_with_FreeLibrary (env : Env) (dllName : CString) :
    ∃ t, (loadDVCUsingDllName env dllName).trace
          = t ++ [Event.FreeLibrary (env.LoadLibrary dllName)]
      ∧ freeLibraryCalls t = [] := by
  unfold loadDVCUsingDllName loadDVCUsingDllName_EXCEPTION
  dsimp only
  split_ifs <;>
    exact ⟨_, rfl, by
      simp [freeLibraryCalls_append, freeLibraryCalls_cons, freeLibraryCalls_nil,
        freeLibraryCalls_releaseLoop]⟩

/-- Every run of `loadDVCUsingDllNameCLSID` ends with its one call of `FreeLibrary`, on
the value `LoadLibrary` returned. -/
theorem loadDVCUsingDllNameCLSID_ends_with_FreeLibrary (env : Env) (dllName : CString)
    (clsid : CLSID) :
    ∃ t, (loadDVCUsingDllNameCLSID env dllName clsid).trace
          = t ++ [Event.FreeLibrary (env.LoadLibrary dllName)]
      ∧ freeLibraryCalls t = [] := by
  unfold loadDVCUsingDllNameCLSID loadDVCUsingDllNameCLSID_EXCEPTION
  dsimp only
  split_ifs <;>
    exact ⟨_, rfl, by
      simp [freeLibraryCalls_append, freeLibraryCalls_cons, freeLibraryCalls_nil]⟩

/-- The calls of `FreeLibrary` in a run of `loadDVCUsingDllName`: exactly one, on the
value `LoadLibrary` returned. -/
theorem freeLibraryCalls_loadDVCUsingDllName (env : Env) (dllName : CString) :
    freeLibraryCalls (loadDVCUsingDllName env dllName).trace = [env.LoadLibrary dllName] := by
  obtain ⟨t, ht, hn⟩ := loadDVCUsingDllName_ends_with_FreeLibrary env dllName
  rw [ht, freeLibraryCalls_append, hn]
  simp [freeLibraryCalls]

/-- The calls of `FreeLibrary` in a run of `loadDVCUsingDllNameCLSID`: exactly one, on
the value `LoadLibrary` returned. -/
theorem freeLibraryCalls_loadDVCUsingDllNameCLSID (env : Env) (dllName : CString)
    (clsid : CLSID) :
    freeLibraryCalls (loadDVCUsingDllNameCLSID env dllName clsid).trace
      = [env.LoadLibrary dllName] := by
  obtain ⟨t, ht, hn⟩ := loadDVCUsingDllNameCLSID_ends_with_FreeLibrary env dllName clsid
  rw [ht, freeLibraryCalls_append, hn]
  simp [freeLibraryCalls]

/-- The run of `loadDVCUsingDllName` in which the first call of the discovery export
returns a status other than `S_OK`. -/
theorem loadDVCUsingDllName_probe_status (env : Env) (dllName : CString)
    (hload : env.LoadLibrary dllName ≠ NULL)
    (hexp : discoveryExport env dllName ≠ NULL)
    (hprobe : (probeCall env dllName).1 ≠ S_OK) :
    loadDVCUsingDllName env dllName
      = ⟨NULL,
          [Event.LoadLibrary dllName,
            Event.GetProcAddress (env.LoadLibrary dllName) "VirtualChannelGetInstance",
            Event.VirtualChannelGetInstance (discoveryExport env dllName) 0 NULL,
            Event.fprintf (Diag.errVirtualChannelGetInstance (probeCall env dllName).1),
            Event.FreeLibrary (env.LoadLibrary dllName)]⟩ := by
  unfold probeCall discoveryExport at *
  unfold loadDVCUsingDllName loadDVCUsingDllName_EXCEPTION
  simp [hload, hexp, hprobe]

/-- The run of `loadDVCUsingDllName` in which the first call of the discovery export
returns `S_OK` and reports no object. -/
theorem loadDVCUsingDllName_probe_zero (env : Env) (dllName : CString)
    (hload : env.LoadLibrary dllName ≠ NULL)
    (hexp : discoveryExport env dllName ≠ NULL)
    (hprobe : (probeCall env dllName).1 = S_OK)
    (hcount : (probeCall env dllName).2.1 = 0) :
    loadDVCUsingDllName env dllName
      = ⟨NULL,
          [Event.LoadLibrary dllName,
            Event.GetProcAddress (env.LoadLibrary dllName) "VirtualChannelGetInstance",
            Event.VirtualChannelGetInstance (discoveryExport env dllName) 0 NULL,
            Event.fprintf Diag.noObjects,
            Event.FreeLibrary (env.LoadLibrary dllName)]⟩ := by
  unfold probeCall discoveryExport at *
  unfold loadDVCUsingDllName loadDVCUsingDllName_EXCEPTION
  simp [hload, hexp, hprobe, hcount]

/-- The value `loadDVCUsingCLSID` returns: `NULL` unless the registry returned `S_OK`. -/
theorem loadDVCUsingCLSID_val (env : Env) (clsid : CLSID) :
    (loadDVCUsingCLSID env clsid).val
      = if (env.CoCreateInstance clsid).1 = S_OK then (env.CoCreateInstance clsid).2
        else NULL := by
  unfold loadDVCUsingCLSID
  dsimp only
  split_ifs <;> simp_all

/-- The value `loadDVCUsingDllName` returns: `NULL` unless every step succeeded. -/
theorem loadDVCUsingDllName_val (env : Env) (dllName : CString) :
    (loadDVCUsingDllName env dllName).val
      = if env.LoadLibrary dllName ≠ NULL ∧ discoveryExport env dllName ≠ NULL
            ∧ (probeCall env dllName).1 = S_OK ∧ (probeCall env dllName).2.1 ≠ 0
            ∧ objArrayOf env dllName ≠ NULL ∧ (fillCall env dllName).1 = S_OK then
          (fillCall env dllName).2.2 0
        else NULL := by
  unfold fillCall objArrayOf probeCall discoveryExport
  unfold loadDVCUsingDllName loadDVCUsingDllName_EXCEPTION
  dsimp only
  split_ifs <;> simp_all

/-- The value `loadDVCUsingDllNameCLSID` returns: `NULL` when a step before the call of
`CreateInstance` failed, and otherwise whatever `CreateInstance` left in `pWTSPlugin`,
also when `CreateInstance` returned a failure status. -/
theorem loadDVCUsingDllNameCLSID_val (env : Env) (dllName : CString) (clsid : CLSID) :
    (loadDVCUsingDllNameCLSID env dllName clsid).val
      = if env.LoadLibrary dllName ≠ NULL ∧ classObjectExport env dllName ≠ NULL
            ∧ (classObjectCall env dllName clsid).1 = S_OK then
          (createInstanceCall env dllName clsid).2
        else NULL := by
  unfold createInstanceCall classObjectCall classObjectExport
  unfold loadDVCUsingDllNameCLSID loadDVCUsingDllNameCLSID_EXCEPTION
  dsimp only
  split_ifs <;> simp_all

/-- The calls of `Release` in a run of `loadDVCUsingDllNameCLSID` when the class-object
export keeps the COM convention (a non-null factory exactly when it returns `S_OK`):
one, on the factory, exactly when the export call returned `S_OK`. -/
theorem releaseCalls_loadDVCUsingDllNameCLSID_conforming (env : Env) (dllName : CString)
    (clsid : CLSID)
    (hconv : (classObjectCall env dllName clsid).1 = S_OK
      ↔ (classObjectCall env dllName clsid).2 ≠ NULL) :
    releaseCalls (loadDVCUsingDllNameCLSID env dllName clsid).trace
      = if env.LoadLibrary dllName ≠ NULL ∧ classObjectExport env dllName ≠ NULL
            ∧ (classObjectCall env dllName clsid).1 = S_OK then
          [(classObjectCall env dllName clsid).2]
        else [] := by
  unfold classObjectCall classObjectExport at *
  unfold loadDVCUsingDllNameCLSID loadDVCUsingDllNameCLSID_EXCEPTION
  dsimp only
  split_ifs <;>
    simp_all [releaseCalls_append, releaseCalls_cons, releaseCalls_nil]

/-! ## The bracket of `main` around a resolution -/

theorem runtime_calls_loadDVCUsingCLSID (env : Env) (clsid : CLSID) :
    Event.CoInitialize ∉ (loadDVCUsingCLSID env clsid).trace
      ∧ Event.CoUninitialize ∉ (loadDVCUsingCLSID env clsid).trace := by
  unfold loadDVCUsingCLSID
  dsimp only
  split_ifs <;> simp

theorem runtime_calls_loadDVCUsingDllName (env : Env) (dllName : CString) :
    Event.CoInitialize ∉ (loadDVCUsingDllName env dllName).trace
      ∧ Event.CoUninitialize ∉ (loadDVCUsingDllName env dllName).trace := by
  unfold loadDVCUsingDllName loadDVCUsingDllName_EXCEPTION
  dsimp only
  split_ifs <;> simp [releaseLoop_eq]

theorem runtime_calls_loadDVCUsingDllNameCLSID (env : Env) (dllName : CString)
    (clsid : CLSID) :
    Event.CoInitialize ∉ (loadDVCUsingDllNameCLSID env dllName clsid).trace
      ∧ Event.CoUninitialize ∉ (loadDVCUsingDllNameCLSID env dllName clsid).trace := by
  unfold loadDVCUsingDllNameCLSID loadDVCUsingDllNameCLSID_EXCEPTION
  dsimp only
  split_ifs <;> simp

/-- With one argument (`argc = 2`), the run of `main` is: the initialization, then a
resolution that calls one loading function and neither initializes nor tears down, then
the report of the result, then the teardown; and `main` returns 0. -/
theorem main_one_argument_bracket (env : Env) (prog arg : CString) :
    ∃ mid p, main env [prog, arg]
          = ⟨0, Event.CoInitialize :: (mid ++ [Event.printf p, Event.CoUninitialize])⟩
      ∧ Event.CoInitialize ∉ mid ∧ Event.CoUninitialize ∉ mid
      ∧ (invocations mid).length = 1 := by
  cases hs : strrchr arg ':' with
  | none =>
    by_cases hp : (parseCLSIDString env arg).val.1 = true
    · have hr := runtime_calls_loadDVCUsingCLSID env (parseCLSIDString env arg).val.2
      refine ⟨_, _, main_no_colon_parsed env prog arg hs hp, ?_, ?_, ?_⟩
      · simp [hr.1]
      · simp [hr.2]
      · simp [invocations_append, invocations_cons, invocations_nil,
          invocations_loadDVCUsingCLSID]
    · have hp2 : (parseCLSIDString env arg).val.1 = false := by simpa using hp
      have hr := runtime_calls_loadDVCUsingDllName env arg
      refine ⟨_, _, main_no_colon_unparsed env prog arg hs hp2, ?_, ?_, ?_⟩
      · simp [hr.1]
      · simp [hr.2]
      · simp [invocations_append, invocations_cons, invocations_nil,
          invocations_loadDVCUsingDllName]
  | some i =>
    by_cases hp : (parseCLSIDString env (arg.drop (i + 1))).val.1 = true
    · have hr := runtime_calls_loadDVCUsingDllNameCLSID env (arg.take i)
        (parseCLSIDString env (arg.drop (i + 1))).val.2
      refine ⟨_, _, main_colon_parsed env prog arg i hs hp, ?_, ?_, ?_⟩
      · simp [hr.1]
      · simp [hr.2]
      · simp [invocations_append, invocations_cons, invocations_nil,
          invocations_loadDVCUsingDllNameCLSID]
    · have hp2 : (parseCLSIDString env (arg.drop (i + 1))).val.1 = false := by simpa using hp
      have hr := runtime_calls_loadDVCUsingDllName env arg
      refine ⟨_, _, main_colon_unparsed env prog arg i hs hp2, ?_, ?_, ?_⟩
      · simp [hr.1]
      · simp [hr.2]
      · simp [invocations_append, invocations_cons, invocations_nil,
          invocations_loadDVCUsingDllName]

/-! ## The claims -/

/-- C1: with an identifier parser that rejects every string containing a colon, on an
argument `name:tail` whose `tail` parses, `main` calls `loadDVCUsingDllNameCLSID`, with
library name `name` (colons in it included) and the identifier parsed from `tail`, and
calls no other loading function; the run is exactly that call between the
initialization, the parse, and the report and teardown. -/
theorem C1_factory_export_dispatch (env : Env) (prog name tail : CString)
    (hcolon : ∀ s : CString, ':' ∈ s → (parseCLSIDString env s).val.1 = false)
    (htail : (parseCLSIDString env tail).val.1 = true) :
    invocations (main env [prog, name ++ ':' :: tail]).trace
        = [StrategyCall.loadDVCUsingDllNameCLSID name (parseCLSIDString env tail).val.2]
      ∧ main env [prog, name ++ ':' :: tail]
        = ⟨0, [Event.CoInitialize, Event.CLSIDFromString tail,
                Event.call (StrategyCall.loadDVCUsingDllNameCLSID name
                  (parseCLSIDString env tail).val.2)]
              ++ (loadDVCUsingDllNameCLSID env name (parseCLSIDString env tail).val.2).trace
              ++ [Event.printf
                    (loadDVCUsingDllNameCLSID env name (parseCLSIDString env tail).val.2).val,
                  Event.CoUninitialize]⟩ := by
  have hnot : ':' ∉ tail := fun hin => by
    have hf := hcolon tail hin
    rw [htail] at hf
    cases hf
  have hs := strrchr_append_cons name tail ':' hnot
  have hd := drop_append_cons_length name tail ':'
  have ht := take_append_cons_length name tail ':'
  constructor
  · rw [invocations_main_colon env prog _ _ hs, hd, ht]
    simp [htail]
  · have hm := main_colon_parsed env prog _ _ hs (by rw [hd]; exact htail)
    rw [hd, ht] at hm
    exact hm

/-- C1, witness: the argument `C:p:g1` with a parser that accepts exactly `g1`. -/
theorem C1_factory_export_dispatch_witness :
    (parseCLSIDString envParse ['C', ':', 'p', ':', 'g', '1']).val.1 = false
      ∧ (parseCLSIDString envParse ['g', '1']).val.1 = true
      ∧ invocations (main envParse [['d'], ['C', ':', 'p', ':', 'g', '1']]).trace
          = [StrategyCall.loadDVCUsingDllNameCLSID ['C', ':', 'p'] 77] :=
  ⟨by decide, by decide,
    (C1_factory_export_dispatch envParse ['d'] ['C', ':', 'p'] ['g', '1']
      envParse_rejects_colon (by decide)).1⟩

/-- C2: on an argument that contains a colon and whose text after the separator (the
last colon, the one `strrchr` finds) does not parse, `main` calls `loadDVCUsingDllName`
with the whole argument, colon included, and calls no other loading function. -/
theorem C2_discovery_export_fallback (env : Env) (prog name tail : CString)
    (hlast : ':' ∉ tail)
    (htail : (parseCLSIDString env tail).val.1 = false) :
    invocations (main env [prog, name ++ ':' :: tail]).trace
        = [StrategyCall.loadDVCUsingDllName (name ++ ':' :: tail)]
      ∧ main env [prog, name ++ ':' :: tail]
        = ⟨0, [Event.CoInitialize, Event.CLSIDFromString tail,
                Event.call (StrategyCall.loadDVCUsingDllName (name ++ ':' :: tail))]
              ++ (loadDVCUsingDllName env (name ++ ':' :: tail)).trace
              ++ [Event.printf (loadDVCUsingDllName env (name ++ ':' :: tail)).val,
                  Event.CoUninitialize]⟩ := by
  have hs := strrchr_append_cons name tail ':' hlast
  have hd := drop_append_cons_length name tail ':'
  constructor
  · rw [invocations_main_colon env prog _ _ hs, hd]
    simp [htail]
  · have hm := main_colon_unparsed env prog _ _ hs (by rw [hd]; exact htail)
    rw [hd] at hm
    exact hm

/-- C2, witness: the path `C:p` with a parser that accepts exactly `g1`. -/
theorem C2_discovery_export_fallback_witness :
    ':' ∉ ['p'] ∧ (parseCLSIDString envParse ['p']).val.1 = false
      ∧ invocations (main envParse [['d'], ['C', ':', 'p']]).trace
          = [StrategyCall.loadDVCUsingDllName ['C', ':', 'p']] :=
  ⟨by decide, by decide,
    (C2_discovery_export_fallback envParse ['d'] ['C'] ['p'] (by decide) (by decide)).1⟩

/-- C3: on an argument without a colon, `main` calls exactly one loading function:
`loadDVCUsingCLSID` with the parsed identifier when the whole argument parses, and
`loadDVCUsingDllName` with the whole argument when it does not. -/
theorem C3_no_separator_dispatch (env : Env) (prog arg : CString) (hno : ':' ∉ arg) :
    ((parseCLSIDString env arg).val.1 = true →
        invocations (main env [prog, arg]).trace
          = [StrategyCall.loadDVCUsingCLSID (parseCLSIDString env arg).val.2])
      ∧ ((parseCLSIDString env arg).val.1 = false →
        invocations (main env [prog, arg]).trace = [StrategyCall.loadDVCUsingDllName arg])
      ∧ (invocations (main env [prog, arg]).trace).length = 1
      ∧ (invocations (main env [prog, arg]).trace
            = [StrategyCall.loadDVCUsingCLSID (parseCLSIDString env arg).val.2]
          ↔ (parseCLSIDString env arg).val.1 = true) := by
  have hs := (strrchr_eq_none_iff arg ':').mpr hno
  rw [invocations_main_no_colon env prog arg hs]
  by_cases hp : (parseCLSIDString env arg).val.1 = true
  · simp [hp]
  · simp [hp]

/-- C3, witness: the arguments `g1` (parses) and `p` (does not). -/
theorem C3_no_separator_dispatch_witness :
    ':' ∉ ['g', '1']
      ∧ invocations (main envParse [['d'], ['g', '1']]).trace
          = [StrategyCall.loadDVCUsingCLSID 77]
      ∧ ':' ∉ ['p']
      ∧ invocations (main envParse [['d'], ['p']]).trace
          = [StrategyCall.loadDVCUsingDllName ['p']] :=
  ⟨by decide,
    (C3_no_separator_dispatch envParse ['d'] ['g', '1'] (by decide)).1 (by decide),
    by decide,
    (C3_no_separator_dispatch envParse ['d'] ['p'] (by decide)).2.1 (by decide)⟩

/-- C4, the run that breaks it: when `LoadLibrary` fails, both `loadDVCUsingDllName`
and `loadDVCUsingDllNameCLSID` still call `FreeLibrary`, once, on the null handle. -/
theorem C4_FreeLibrary_after_failed_load (dllName : CString) (clsid : CLSID) :
    envNone.LoadLibrary dllName = NULL
      ∧ (loadDVCUsingDllName envNone dllName).trace
          = [Event.LoadLibrary dllName, Event.fprintf (Diag.couldNotLoad dllName),
              Event.FreeLibrary NULL]
      ∧ freeLibraryCalls (loadDVCUsingDllName envNone dllName).trace = [NULL]
      ∧ (loadDVCUsingDllNameCLSID envNone dllName clsid).trace
          = [Event.LoadLibrary dllName, Event.fprintf (Diag.couldNotLoad dllName),
              Event.FreeLibrary NULL]
      ∧ freeLibraryCalls (loadDVCUsingDllNameCLSID envNone dllName clsid).trace = [NULL] := by
  refine ⟨rfl, ?_, ?_, ?_, ?_⟩ <;>
    simp [loadDVCUsingDllName, loadDVCUsingDllName_EXCEPTION, loadDVCUsingDllNameCLSID,
      loadDVCUsingDllNameCLSID_EXCEPTION, envNone, freeLibraryCalls]

/-- C6, the run that breaks it: the factory's `CreateInstance` returns `E_FAIL` after
storing a pointer in its output parameter, and `loadDVCUsingDllNameCLSID` prints the
diagnostic and returns that pointer, not `NULL`. -/
theorem C6_failed_CreateInstance_returns_pointer (dllName : CString) (clsid : CLSID) :
    (createInstanceCall envBadFactory dllName clsid).1 ≠ S_OK
      ∧ (loadDVCUsingDllNameCLSID envBadFactory dllName clsid).val = 9
      ∧ (loadDVCUsingDllNameCLSID envBadFactory dllName clsid).val ≠ NULL
      ∧ (loadDVCUsingDllNameCLSID envBadFactory dllName clsid).trace
          = [Event.LoadLibrary dllName, Event.GetProcAddress 1 "DllGetClassObject",
              Event.DllGetClassObject 2 clsid, Event.CreateInstance 5,
              Event.fprintf (Diag.errCreateInstance E_FAIL), Event.Release 5,
              Event.FreeLibrary 1] := by
  refine ⟨?_, ?_, ?_, ?_⟩ <;>
    simp [createInstanceCall, classObjectCall, classObjectExport, loadDVCUsingDllNameCLSID,
      loadDVCUsingDllNameCLSID_EXCEPTION, envBadFactory, envNone, E_FAIL]

/-- C7, counterexample: the class-object export returns `E_FAIL` after storing a
pointer in its output parameter, and `Release` is called once, on that pointer. -/
theorem C7_counterexample :
    envBadExport.LoadLibrary ['p'] ≠ NULL
      ∧ classObjectExport envBadExport ['p'] ≠ NULL
      ∧ (classObjectCall envBadExport ['p'] 0).1 ≠ S_OK
      ∧ releaseCalls (loadDVCUsingDllNameCLSID envBadExport ['p'] 0).trace = [5]
      ∧ (releaseCalls (loadDVCUsingDllNameCLSID envBadExport ['p'] 0).trace).length ≠ 0 := by
  refine ⟨by decide, by decide, by decide, ?_, ?_⟩ <;>
    simp [loadDVCUsingDllNameCLSID, loadDVCUsingDllNameCLSID_EXCEPTION, envBadExport,
      envNone, E_FAIL, releaseCalls]

/-- C7, amended: in every run of `loadDVCUsingDllNameCLSID`, `Release` is called exactly
once, on the factory, when the library loaded, the class-object export was found and its
call left a non-null pointer in `pClassFactory`, whatever status that call and
`CreateInstance` returned; in every other run `Release` is not called. -/
theorem C7_factory_released_iff_non_null (env : Env) (dllName : CString) (clsid : CLSID) :
    releaseCalls (loadDVCUsingDllNameCLSID env dllName clsid).trace
      = if env.LoadLibrary dllName ≠ NULL ∧ classObjectExport env dllName ≠ NULL
            ∧ (classObjectCall env dllName clsid).2 ≠ NULL then
          [(classObjectCall env dllName clsid).2]
        else [] := by
  unfold classObjectCall classObjectExport
  unfold loadDVCUsingDllNameCLSID loadDVCUsingDllNameCLSID_EXCEPTION
  dsimp only
  split_ifs <;>
    simp_all [releaseCalls_append, releaseCalls_cons, releaseCalls_nil]

/-- C8: when the library loads and the discovery export is present, and the probe call
returns a status other than `S_OK` or reports no object, `loadDVCUsingDllName` returns
`NULL`, calls the discovery export only that once (with the null buffer), calls no
`Release`, and calls `FreeLibrary` exactly once, on the loaded library, as its last step. -/
theorem C8_probe_failure (env : Env) (dllName : CString)
    (hload : env.LoadLibrary dllName ≠ NULL)
    (hexp : discoveryExport env dllName ≠ NULL)
    (hfail : (probeCall env dllName).1 ≠ S_OK ∨ (probeCall env dllName).2.1 = 0) :
    (loadDVCUsingDllName env dllName).val = NULL
      ∧ discoveryCalls (loadDVCUsingDllName env dllName).trace = [(0, NULL)]
      ∧ releaseCalls (loadDVCUsingDllName env dllName).trace = []
      ∧ freeLibraryCalls (loadDVCUsingDllName env dllName).trace = [env.LoadLibrary dllName]
      ∧ (loadDVCUsingDllName env dllName).trace.getLast?
          = some (Event.FreeLibrary (env.LoadLibrary dllName)) := by
  by_cases hprobe : (probeCall env dllName).1 = S_OK
  · have hcount : (probeCall env dllName).2.1 = 0 := by
      rcases hfail with h | h
      · exact absurd hprobe h
      · exact h
    rw [loadDVCUsingDllName_probe_zero env dllName hload hexp hprobe hcount]
    simp [discoveryCalls, releaseCalls, freeLibraryCalls]
  · rw [loadDVCUsingDllName_probe_status env dllName hload hexp hprobe]
    simp [discoveryCalls, releaseCalls, freeLibraryCalls]

/-- C8, witness: a library whose discovery export reports success and no object. -/
theorem C8_probe_failure_witness :
    envEmpty.LoadLibrary ['p'] ≠ NULL
      ∧ discoveryExport envEmpty ['p'] ≠ NULL
      ∧ (probeCall envEmpty ['p']).2.1 = 0
      ∧ (loadDVCUsingDllName envEmpty ['p']).val = NULL
      ∧ discoveryCalls (loadDVCUsingDllName envEmpty ['p']).trace = [(0, NULL)]
      ∧ releaseCalls (loadDVCUsingDllName envEmpty ['p']).trace = []
      ∧ freeLibraryCalls (loadDVCUsingDllName envEmpty ['p']).trace = [1] :=
  have h := C8_probe_failure envEmpty ['p'] (by decide) (by decide) (Or.inr (by decide))
  ⟨by decide, by decide, by decide, h.1, h.2.1, h.2.2.1, h.2.2.2.1⟩

/-- C10, the run that breaks it: with no argument (`argc = 1`), `main` initializes the
COM runtime, prints the usage line and returns -1 without any teardown. -/
theorem C10_usage_path_skips_teardown (env : Env) (prog : CString) :
    (main env [prog]).trace = [Event.CoInitialize, Event.usage]
      ∧ (main env [prog]).val = -1
      ∧ initializations (main env [prog]).trace = 1
      ∧ teardowns (main env [prog]).trace = 0 := by
  simp [main, showUsage, initializations, teardowns]

end DVCLoader
